import Mathlib

/-!
Verification development for the CodeForge model-conversion scripts
(`convert_to_onnx.py`, `embed.py`, `extract_embeddings.py`).

The scripts are shallowly embedded: pure computations (file contents,
the config record, the binary dump) become Lean functions; the control
flow of each script, including which operations may raise a Python
exception and where such exceptions are caught, becomes an explicit
run function over an exception oracle.  Machine-level float32 values
are represented by their 32-bit patterns (naturals below 2^32); the
numeric semantics of float operations is never needed by the claims,
only element counts and byte layout.
-/

namespace CodeForge

/-! ## Data model

A numpy 2-D array is a shape pair plus a row-major flat buffer of
elements; here each element is the 32-bit pattern of a float32 value
(the torch embedding weight is float32, so `astype(np.float32)` in
`create_go_embedding_data` is the identity on the stored values). -/

structure NDArray2 where
  shape0 : Nat
  shape1 : Nat
  data : List Nat
  deriving DecidableEq, Repr

/-- Well-formedness of a numpy 2-D array: the flat buffer holds exactly
shape0 x shape1 elements (numpy guarantees this for every real array). -/
def NDArray2.wf (w : NDArray2) : Prop :=
  w.data.length = w.shape0 * w.shape1

instance (w : NDArray2) : Decidable w.wf := by
  unfold NDArray2.wf; infer_instance

/-- Little-endian byte serialization of one float32 bit pattern, as
`numpy.tobytes` emits it on a little-endian host: four bytes. -/
def f32LE (x : Nat) : List Nat :=
  [x % 256, x / 256 % 256, x / 65536 % 256, x / 16777216 % 256]

/-- The byte string `weights_f32.tobytes()` written to `embeddings.bin`:
the row-major elements, each as four little-endian bytes. -/
def binBytes (w : NDArray2) : List Nat :=
  w.data.flatMap f32LE

/-- The record dumped to `embeddings_metadata.json` by
`create_go_embedding_data`: dimensions read off the loaded array. -/
structure GoMetadata where
  vocab_size : Nat
  embedding_dim : Nat
  data_type : String
  byte_order : String
  deriving DecidableEq, Repr

/-- The metadata of `create_go_embedding_data`: `weights.shape[0]`,
`weights.shape[1]`, `"float32"`, `"little"`. -/
def goMetadata (w : NDArray2) : GoMetadata :=
  { vocab_size := w.shape0
    embedding_dim := w.shape1
    data_type := "float32"
    byte_order := "little" }

/-- A module of a loaded SentenceTransformer model: the attribute names
`hasattr` sees, and its stage kind (used only to say, in the spec's
vocabulary, whether a module is a normalization stage). -/
inductive ModuleKind
  | staticEmbedding
  | normalizeStage
  | pooling
  | other
  deriving DecidableEq, Repr

structure PyModule where
  attrs : List String
  kind : ModuleKind
  deriving DecidableEq, Repr

/-- The state of a loaded model the scripts consume: its module list,
the embedding weight matrix of `model[0]` (as extracted by
`...weight.detach().cpu().numpy()`), the tokenizer vocabulary
`tokenizer.get_vocab()` (token string to id), and the file names
present in the model directory (for the side-file copy loops). -/
structure PyModel where
  modules : List PyModule
  weights : NDArray2
  vocab : List (String × Nat)
  modelDirFiles : List String
  deriving DecidableEq, Repr

/-- The record dumped to `model_config.json` by `extract_model_weights`. -/
structure ModelConfig where
  vocab_size : Nat
  embedding_dim : Nat
  model_type : String
  normalize : Bool
  deriving DecidableEq, Repr

/-- The Python test `len(model) > 1 and hasattr(model[1], 'normalize')`
(short-circuit guards the index). -/
def secondModuleNormalizeTest (mods : List PyModule) : Bool :=
  decide (mods.length > 1) &&
    (match mods.get? 1 with
     | some m1 => m1.attrs.contains "normalize"
     | none => false)

/-- The record `config_data` as built at lines 51-56 of `extract_embeddings.py`. -/
def configData (m : PyModel) : ModelConfig :=
  { vocab_size := m.vocab.length
    embedding_dim := m.weights.shape1
    model_type := "model2vec_static"
    normalize := secondModuleNormalizeTest m.modules }

/-- Refinement predicate written from the spec's words, for comparison
with the code's test: the model applies post-normalization, i.e. it has
a normalization module after the embedding stage (at some index >= 1). -/
def appliesPostNormalization (mods : List PyModule) : Bool :=
  (mods.drop 1).any (fun md => md.kind == ModuleKind.normalizeStage)

/-! ## Extractor control flow (`extract_embeddings.py`)

Each primitive operation of the script is a step; an oracle says which
steps raise a Python exception.  A step either completes (performing
its writes) or raises (performing nothing).  `model[0]` additionally
raises when the module list is empty, whatever the oracle says. -/

inductive ExStep
  | loadModel
  | makedirs
  | getModule0
  | extractWeights
  | saveNpy
  | getVocab
  | saveVocab
  | saveConfig
  | copyFiles
  | testExtraction
  | loadNpyGo
  | writeBin
  | writeMetadata
  deriving DecidableEq, Repr

/-- Contents of the files the scripts write. -/
inductive FileData
  | npyData (w : NDArray2)
  | jsonVocab (v : List (String × Nat))
  | jsonConfig (c : ModelConfig)
  | binData (b : List Nat)
  | jsonMetadata (md : GoMetadata)
  | onnxGraph (normalizePresent : Bool)
  | copiedFile
  deriving DecidableEq, Repr

/-- Outcome of a Python function call in the presence of exceptions. -/
inductive FnOutcome
  | raised
  | returnedFalse
  | returnedTrue
  deriving DecidableEq, Repr

/-- Whether a step of the extractor raises: the oracle decides, except
that `model[0]` also raises on an empty module list. -/
def exRaises (m : PyModel) (o : ExStep → Bool) (s : ExStep) : Bool :=
  o s || (s == ExStep.getModule0 && m.modules.isEmpty)

/-- The writes of the side-file copy loop (lines 63-71): each of
`tokenizer.json`, `config.json` that exists in the model directory. -/
def copySideFiles (m : PyModel) : List (String × FileData) :=
  (["tokenizer.json", "config.json"].filter
      (fun f => m.modelDirFiles.contains f)).map
    (fun f => (f, FileData.copiedFile))

/-- The message printed by the `except` handler at line 80. -/
def extractErrMsg : String := "Error during extraction:"

/-- The function `extract_model_weights` (lines 14-83): model load and `os.makedirs`
run before the try block, so their exceptions escape the function; every
step from `model[0]` to `test_extraction` is inside the try, whose
handler prints the error and returns False.  Result: the outcome, the
file writes performed, and the messages printed by the error handler. -/
def extract_model_weights (m : PyModel) (o : ExStep → Bool) :
    FnOutcome × List (String × FileData) × List String :=
  if exRaises m o ExStep.loadModel then (FnOutcome.raised, [], [])
  else if exRaises m o ExStep.makedirs then (FnOutcome.raised, [], [])
  else if exRaises m o ExStep.getModule0 then
    (FnOutcome.returnedFalse, [], [extractErrMsg])
  else if exRaises m o ExStep.extractWeights then
    (FnOutcome.returnedFalse, [], [extractErrMsg])
  else if exRaises m o ExStep.saveNpy then
    (FnOutcome.returnedFalse, [], [extractErrMsg])
  else if exRaises m o ExStep.getVocab then
    (FnOutcome.returnedFalse,
     [("embedding_weights.npy", FileData.npyData m.weights)], [extractErrMsg])
  else if exRaises m o ExStep.saveVocab then
    (FnOutcome.returnedFalse,
     [("embedding_weights.npy", FileData.npyData m.weights)], [extractErrMsg])
  else if exRaises m o ExStep.saveConfig then
    (FnOutcome.returnedFalse,
     [("embedding_weights.npy", FileData.npyData m.weights),
      ("vocab.json", FileData.jsonVocab m.vocab)], [extractErrMsg])
  else if exRaises m o ExStep.copyFiles then
    (FnOutcome.returnedFalse,
     [("embedding_weights.npy", FileData.npyData m.weights),
      ("vocab.json", FileData.jsonVocab m.vocab),
      ("model_config.json", FileData.jsonConfig (configData m))],
     [extractErrMsg])
  else if exRaises m o ExStep.testExtraction then
    (FnOutcome.returnedFalse,
     [("embedding_weights.npy", FileData.npyData m.weights),
      ("vocab.json", FileData.jsonVocab m.vocab),
      ("model_config.json", FileData.jsonConfig (configData m))] ++
       copySideFiles m,
     [extractErrMsg])
  else
    (FnOutcome.returnedTrue,
     [("embedding_weights.npy", FileData.npyData m.weights),
      ("vocab.json", FileData.jsonVocab m.vocab),
      ("model_config.json", FileData.jsonConfig (configData m))] ++
       copySideFiles m,
     [])

/-- Observable result of a whole process run: exit status, whether the
process died of an uncaught exception (CPython then still exits 1, but
no handler of the script ran), the script's error messages, and the
completed file writes in order. -/
structure RunResult where
  exitCode : Nat
  uncaught : Bool
  printed : List String
  writes : List (String × FileData)
  deriving DecidableEq, Repr

/-- The usage message of `extract_embeddings.py`. -/
def exUsageMsg : String :=
  "Usage: python extract_embeddings.py <input_model_path> <output_path>"

/-- The missing-path message of both converters' `main`, applied to the
given input path. -/
def missingPathMsg (p : String) : String :=
  "Error: Input path does not exist: " ++ p

/-- The value `sys.argv[1]`, the input model path of both `main`s (meaningful
once the argument count has been checked). -/
def argvInput (argv : List String) : String :=
  (argv.get? 1).getD ""

/-- The function `main` of `extract_embeddings.py` (lines 152-176) followed by
`create_go_embedding_data` (lines 122-150) on success.  `argv` includes
the script name; `pathExists` is the file system's answer to
`os.path.exists`.  `create_go_embedding_data` runs outside any
try/except, so its exceptions are uncaught; `np.load` there re-reads the
array that `extract_model_weights` just saved, which is `m.weights`. -/
def extractMain (argv : List String) (pathExists : String → Bool)
    (m : PyModel) (o : ExStep → Bool) : RunResult :=
  if argv.length ≠ 3 then
    { exitCode := 1, uncaught := false, printed := [exUsageMsg], writes := [] }
  else
    if pathExists (argvInput argv) = false then
      { exitCode := 1, uncaught := false
        printed := [missingPathMsg (argvInput argv)], writes := [] }
    else
      match extract_model_weights m o with
      | (FnOutcome.raised, ws, ps) =>
        { exitCode := 1, uncaught := true, printed := ps, writes := ws }
      | (FnOutcome.returnedFalse, ws, ps) =>
        { exitCode := 1, uncaught := false
          printed := ps ++ ["Extraction failed!"], writes := ws }
      | (FnOutcome.returnedTrue, ws, ps) =>
        if exRaises m o ExStep.loadNpyGo then
          { exitCode := 1, uncaught := true, printed := ps, writes := ws }
        else if exRaises m o ExStep.writeBin then
          { exitCode := 1, uncaught := true, printed := ps, writes := ws }
        else if exRaises m o ExStep.writeMetadata then
          { exitCode := 1, uncaught := true, printed := ps
            writes := ws ++
              [("embeddings.bin", FileData.binData (binBytes m.weights))] }
        else
          { exitCode := 0, uncaught := false, printed := ps
            writes := ws ++
              [("embeddings.bin", FileData.binData (binBytes m.weights)),
               ("embeddings_metadata.json",
                FileData.jsonMetadata (goMetadata m.weights))] }

/-! ## Converter control flow (`convert_to_onnx.py`) -/

inductive CvStep
  | loadModelCv
  | evalCv
  | makedirsCv
  | getModule0Cv
  | exportOnnx
  | copyFilesCv
  deriving DecidableEq, Repr

/-- The fallible operations inside `test_onnx_model`'s try block. -/
inductive TestStep
  | loadSession
  | loadOriginal
  | encodeTest
  deriving DecidableEq, Repr

/-- Whether a converter step raises: the oracle decides, except that
`model[0]` also raises on an empty module list. -/
def cvRaises (m : PyModel) (o : CvStep → Bool) (s : CvStep) : Bool :=
  o s || (s == CvStep.getModule0Cv && m.modules.isEmpty)

/-- The wrapper's optional normalization stage (lines 57-63): `model[1]`
whenever the module list has more than one module, else `None`. -/
def wrapperNormalizeModule (mods : List PyModule) : Option PyModule :=
  if mods.length > 1 then mods.get? 1 else none

/-- The method `Model2VecWrapper.forward` (lines 46-55), parametric in the semantic
action of the static-embedding stage on the token ids and of the
optional normalization stage on the sentence embedding: the embedding
is computed, then normalization is applied exactly when a normalization
module was passed. -/
def model2VecWrapperForward (staticEmb : List Nat → List Nat)
    (normalizeM : Option (List Nat → List Nat)) (inputIds : List Nat) :
    List Nat :=
  let embeddings := staticEmb inputIds
  match normalizeM with
  | some n => n embeddings
  | none => embeddings

/-- The function `test_onnx_model` (lines 109-141): the whole body is one try block;
`ImportError` on `import onnxruntime` returns True, any other exception
returns False, completion returns True.  No exception escapes. -/
def test_onnx_model (importOk : Bool) (t : TestStep → Bool) : Bool :=
  if importOk = false then true
  else if t TestStep.loadSession then false
  else if t TestStep.loadOriginal then false
  else if t TestStep.encodeTest then false
  else true

/-- The message printed by the converter's `except` handler (line 104). -/
def convertErrMsg : String := "Error during ONNX export:"

/-- The side-file copy loop of the converter (lines 87-95). -/
def copySideFilesCv (m : PyModel) : List (String × FileData) :=
  (["tokenizer.json", "config.json", "modules.json"].filter
      (fun f => m.modelDirFiles.contains f)).map
    (fun f => (f, FileData.copiedFile))

/-- The function `convert_model_to_onnx` (lines 13-107): load, `eval` and `makedirs`
run before the try block, so their exceptions escape; module access,
export and copying are inside the try, whose handler prints and returns
False.  The exported graph contains the normalization stage exactly
when the wrapper was given a normalization module, i.e. when the module
list has more than one entry.  `test_onnx_model` runs last; its result
is discarded and it never raises. -/
def convert_model_to_onnx (m : PyModel) (o : CvStep → Bool)
    (importOk : Bool) (t : TestStep → Bool) :
    FnOutcome × List (String × FileData) × List String :=
  if cvRaises m o CvStep.loadModelCv then (FnOutcome.raised, [], [])
  else if cvRaises m o CvStep.evalCv then (FnOutcome.raised, [], [])
  else if cvRaises m o CvStep.makedirsCv then (FnOutcome.raised, [], [])
  else if cvRaises m o CvStep.getModule0Cv then
    (FnOutcome.returnedFalse, [], [convertErrMsg])
  else if cvRaises m o CvStep.exportOnnx then
    (FnOutcome.returnedFalse, [], [convertErrMsg])
  else if cvRaises m o CvStep.copyFilesCv then
    (FnOutcome.returnedFalse,
     [("model.onnx",
       FileData.onnxGraph ((wrapperNormalizeModule m.modules).isSome))],
     [convertErrMsg])
  else
    let _discardedTestResult := test_onnx_model importOk t
    (FnOutcome.returnedTrue,
     [("model.onnx",
       FileData.onnxGraph ((wrapperNormalizeModule m.modules).isSome))] ++
       copySideFilesCv m,
     [])

/-- The usage message of `convert_to_onnx.py`. -/
def cvUsageMsg : String :=
  "Usage: python convert_to_onnx.py <input_model_path> <output_path>"

/-- The function `main` of `convert_to_onnx.py` (lines 143-165). -/
def convertMain (argv : List String) (pathExists : String → Bool)
    (m : PyModel) (o : CvStep → Bool) (importOk : Bool)
    (t : TestStep → Bool) : RunResult :=
  if argv.length ≠ 3 then
    { exitCode := 1, uncaught := false, printed := [cvUsageMsg], writes := [] }
  else
    if pathExists (argvInput argv) = false then
      { exitCode := 1, uncaught := false
        printed := [missingPathMsg (argvInput argv)], writes := [] }
    else
      match convert_model_to_onnx m o importOk t with
      | (FnOutcome.raised, ws, ps) =>
        { exitCode := 1, uncaught := true, printed := ps, writes := ws }
      | (FnOutcome.returnedFalse, ws, ps) =>
        { exitCode := 1, uncaught := false
          printed := ps ++ ["Conversion failed!"], writes := ws }
      | (FnOutcome.returnedTrue, ws, ps) =>
        { exitCode := 0, uncaught := false, printed := ps, writes := ws }

/-! ## Embedder (`embed.py`) -/

/-- One line of standard output of `embed.py`: a JSON object carrying
either the embedding array or an error string. -/
inductive EmbedOut
  | embeddingLine (v : List Nat)
  | errorLine (msg : String)
  deriving DecidableEq, Repr

/-- Modelled from the spec: `SentenceTransformer.encode` for a
model2vec static model is library code not under `src/`; per the spec's
glossary it is a static lookup-table embedding with no transformer
computation and no dropout at inference: tokenize the text, look up one
fixed vector per token id from the embedding matrix, and pool.  Token
ids here are vocabulary lookups of whitespace-split words; pooling is
the elementwise sum of the rows (the values are 32-bit patterns, whose
numeric semantics no claim needs; what matters is that the function is
a fixed map of the model state and the input text). -/
def model2vecEncode (m : PyModel) (text : String) : List Nat :=
  let ids := (text.splitOn " ").filterMap
    (fun w => (m.vocab.find? (fun p => p.1 == w)).map Prod.snd)
  let dim := m.weights.shape1
  let row := fun (i : Nat) => (m.weights.data.drop (i * dim)).take dim
  let rows := ids.map row
  rows.foldl (fun acc r => acc.zipWith (· + ·) r) (List.replicate dim 0)

/-- The function `generate_embedding` (lines 16-26 of `embed.py`): the body is one
try block; a successful `model.encode` yields the embedding object, an
exception yields the error object with the exception's message. -/
def generate_embedding (encode : String → Except String (List Nat))
    (text : String) : EmbedOut :=
  match encode text with
  | Except.ok v => EmbedOut.embeddingLine v
  | Except.error e =>
    EmbedOut.errorLine ("Failed to generate embedding: " ++ e)

/-- The whole `embed.py` process (module-level load, lines 10-14, then
the `__main__` block, lines 28-35): the lines printed and the exit
status.  A load failure prints the error object and exits 1 before
anything else; a bad argument count prints the usage error object and
exits 1; otherwise the single result object is printed and the process
ends normally (exit 0) whatever the result is. -/
def embedMain (loadResult : Except String Unit)
    (encode : String → Except String (List Nat)) (argv : List String) :
    List EmbedOut × Nat :=
  match loadResult with
  | Except.error e =>
    ([EmbedOut.errorLine ("Failed to load model: " ++ e)], 1)
  | Except.ok _ =>
    match argv with
    | [_, text] => ([generate_embedding encode text], 0)
    | _ => ([EmbedOut.errorLine "Usage: script.py <text>"], 1)

/-- Two consecutive invocations of `generate_embedding` on the same
text within one process load (the model state `m` is fixed). -/
def runEmbedderTwice (m : PyModel) (text : String) : EmbedOut × EmbedOut :=
  (generate_embedding (fun t => Except.ok (model2vecEncode m t)) text,
   generate_embedding (fun t => Except.ok (model2vecEncode m t)) text)

/-! ## Helper lemmas -/

/-- The file writes of a completed `extract_model_weights` call, in
order: the numpy dump, the vocabulary, the config, the copied side
files. -/
def extractSuccessWrites (m : PyModel) : List (String × FileData) :=
  [("embedding_weights.npy", FileData.npyData m.weights),
   ("vocab.json", FileData.jsonVocab m.vocab),
   ("model_config.json", FileData.jsonConfig (configData m))] ++
    copySideFiles m

theorem flatMap_f32LE_length (l : List Nat) :
    (l.flatMap f32LE).length = 4 * l.length := by
  induction l with
  | nil => rfl
  | cons x xs ih =>
    simp [f32LE, ih]
    ring

theorem binBytes_length (w : NDArray2) (h : w.wf) :
    (binBytes w).length = w.shape0 * w.shape1 * 4 := by
  unfold NDArray2.wf at h
  unfold binBytes
  rw [flatMap_f32LE_length, h]
  ring

theorem extract_model_weights_true (m : PyModel) (o : ExStep → Bool)
    (ws : List (String × FileData)) (ps : List String)
    (h : extract_model_weights m o = (FnOutcome.returnedTrue, ws, ps)) :
    ws = extractSuccessWrites m ∧ ps = [] := by
  unfold extract_model_weights at h
  by_cases c1 : exRaises m o ExStep.loadModel = true
  · rw [if_pos c1] at h
    simp at h
  rw [if_neg c1] at h
  by_cases c2 : exRaises m o ExStep.makedirs = true
  · rw [if_pos c2] at h
    simp at h
  rw [if_neg c2] at h
  by_cases c3 : exRaises m o ExStep.getModule0 = true
  · rw [if_pos c3] at h
    simp at h
  rw [if_neg c3] at h
  by_cases c4 : exRaises m o ExStep.extractWeights = true
  · rw [if_pos c4] at h
    simp at h
  rw [if_neg c4] at h
  by_cases c5 : exRaises m o ExStep.saveNpy = true
  · rw [if_pos c5] at h
    simp at h
  rw [if_neg c5] at h
  by_cases c6 : exRaises m o ExStep.getVocab = true
  · rw [if_pos c6] at h
    simp at h
  rw [if_neg c6] at h
  by_cases c7 : exRaises m o ExStep.saveVocab = true
  · rw [if_pos c7] at h
    simp at h
  rw [if_neg c7] at h
  by_cases c8 : exRaises m o ExStep.saveConfig = true
  · rw [if_pos c8] at h
    simp at h
  rw [if_neg c8] at h
  by_cases c9 : exRaises m o ExStep.copyFiles = true
  · rw [if_pos c9] at h
    simp at h
  rw [if_neg c9] at h
  by_cases c10 : exRaises m o ExStep.testExtraction = true
  · rw [if_pos c10] at h
    simp at h
  rw [if_neg c10] at h
  injection h with hA hB
  injection hB with hws hps
  exact ⟨hws.symm, hps.symm⟩

theorem extract_model_weights_writes_sub (m : PyModel) (o : ExStep → Bool)
    (p : String × FileData)
    (hp : p ∈ (extract_model_weights m o).2.1) :
    p ∈ extractSuccessWrites m := by
  unfold extract_model_weights at hp
  by_cases c1 : exRaises m o ExStep.loadModel = true
  · rw [if_pos c1] at hp
    simp at hp
  rw [if_neg c1] at hp
  by_cases c2 : exRaises m o ExStep.makedirs = true
  · rw [if_pos c2] at hp
    simp at hp
  rw [if_neg c2] at hp
  by_cases c3 : exRaises m o ExStep.getModule0 = true
  · rw [if_pos c3] at hp
    simp at hp
  rw [if_neg c3] at hp
  by_cases c4 : exRaises m o ExStep.extractWeights = true
  · rw [if_pos c4] at hp
    simp at hp
  rw [if_neg c4] at hp
  by_cases c5 : exRaises m o ExStep.saveNpy = true
  · rw [if_pos c5] at hp
    simp at hp
  rw [if_neg c5] at hp
  by_cases c6 : exRaises m o ExStep.getVocab = true
  · rw [if_pos c6] at hp
    simp only [if_pos c6] at hp
    simp [extractSuccessWrites] at hp ⊢
    tauto
  rw [if_neg c6] at hp
  by_cases c7 : exRaises m o ExStep.saveVocab = true
  · rw [if_pos c7] at hp
    simp [extractSuccessWrites] at hp ⊢
    tauto
  rw [if_neg c7] at hp
  by_cases c8 : exRaises m o ExStep.saveConfig = true
  · rw [if_pos c8] at hp
    simp [extractSuccessWrites] at hp ⊢
    tauto
  rw [if_neg c8] at hp
  by_cases c9 : exRaises m o ExStep.copyFiles = true
  · rw [if_pos c9] at hp
    simp [extractSuccessWrites] at hp ⊢
    tauto
  rw [if_neg c9] at hp
  by_cases c10 : exRaises m o ExStep.testExtraction = true
  · rw [if_pos c10] at hp
    simp [extractSuccessWrites] at hp ⊢
    tauto
  rw [if_neg c10] at hp
  simp [extractSuccessWrites] at hp ⊢
  tauto

theorem bin_not_in_successWrites (m : PyModel) (b : List Nat) :
    ("embeddings.bin", FileData.binData b) ∉ extractSuccessWrites m := by
  simp [extractSuccessWrites, copySideFiles]

theorem metadata_not_in_successWrites (m : PyModel) (md : GoMetadata) :
    ("embeddings_metadata.json", FileData.jsonMetadata md) ∉
      extractSuccessWrites m := by
  simp [extractSuccessWrites, copySideFiles]

/-- Characterization of a successful extractor run: exit status 0 is
reached only on the path where everything completed, and the run's
observables are then fully determined. -/
theorem extractMain_success (argv : List String) (pe : String → Bool)
    (m : PyModel) (o : ExStep → Bool)
    (h0 : (extractMain argv pe m o).exitCode = 0) :
    extractMain argv pe m o =
      { exitCode := 0, uncaught := false, printed := []
        writes := extractSuccessWrites m ++
          [("embeddings.bin", FileData.binData (binBytes m.weights)),
           ("embeddings_metadata.json",
            FileData.jsonMetadata (goMetadata m.weights))] } := by
  unfold extractMain at h0 ⊢
  by_cases hargv : argv.length ≠ 3
  · rw [if_pos hargv] at h0
    simp at h0
  rw [if_neg hargv] at h0 ⊢
  by_cases hpe : pe (argvInput argv) = false
  · rw [if_pos hpe] at h0
    simp at h0
  rw [if_neg hpe] at h0 ⊢
  rcases heq : extract_model_weights m o with ⟨out, ws, ps⟩
  cases out with
  | raised =>
    rw [heq] at h0
    simp at h0
  | returnedFalse =>
    rw [heq] at h0
    simp at h0
  | returnedTrue =>
    obtain ⟨hws, hps⟩ := extract_model_weights_true m o ws ps heq
    subst hws
    subst hps
    rw [heq] at h0
    by_cases g1 : exRaises m o ExStep.loadNpyGo = true
    · simp [g1] at h0
    by_cases g2 : exRaises m o ExStep.writeBin = true
    · simp [g1, g2] at h0
    by_cases g3 : exRaises m o ExStep.writeMetadata = true
    · simp [g1, g2, g3] at h0
    simp [g1, g2, g3]

theorem extractMain_not_true_writes (argv : List String) (pe : String → Bool)
    (m : PyModel) (o : ExStep → Bool)
    (hnt : (extract_model_weights m o).1 ≠ FnOutcome.returnedTrue) :
    (extractMain argv pe m o).exitCode = 1 ∧
    ∀ p ∈ (extractMain argv pe m o).writes, p ∈ extractSuccessWrites m := by
  unfold extractMain
  by_cases hargv : argv.length ≠ 3
  · rw [if_pos hargv]
    exact ⟨rfl, by simp⟩
  rw [if_neg hargv]
  by_cases hpe : pe (argvInput argv) = false
  · rw [if_pos hpe]
    exact ⟨rfl, by simp⟩
  rw [if_neg hpe]
  rcases heq : extract_model_weights m o with ⟨out, ws, ps⟩
  have hsub : ∀ p ∈ ws, p ∈ extractSuccessWrites m := by
    intro p hp
    refine extract_model_weights_writes_sub m o p ?_
    rw [heq]
    exact hp
  cases out with
  | raised => exact ⟨rfl, hsub⟩
  | returnedFalse => exact ⟨rfl, hsub⟩
  | returnedTrue =>
    exfalso
    apply hnt
    rw [heq]

/-- The Python test read as a proposition on the module list. -/
theorem secondModuleNormalizeTest_iff (mods : List PyModule) :
    secondModuleNormalizeTest mods = true ↔
      mods.length > 1 ∧
        ∃ m1, mods.get? 1 = some m1 ∧ m1.attrs.contains "normalize" = true := by
  unfold secondModuleNormalizeTest
  rcases h : mods.get? 1 with _ | m1
  · simp [h]
  · simp [h, Bool.and_eq_true, decide_eq_true_iff]

/-! ## Concrete models used by witnesses and counterexamples -/

/-- A well-formed model: two modules (static embedding then a
normalization stage carrying a `normalize` attribute), a 2 x 3 weight
matrix, a two-token vocabulary matching the matrix rows. -/
def okModel : PyModel :=
  { modules := [{ attrs := ["embedding"], kind := ModuleKind.staticEmbedding },
                { attrs := ["normalize"], kind := ModuleKind.normalizeStage }]
    weights := { shape0 := 2, shape1 := 3, data := [1, 2, 3, 4, 5, 6] }
    vocab := [("hello", 0), ("world", 1)]
    modelDirFiles := ["tokenizer.json"] }

/-- A model whose tokenizer vocabulary has two keys while the embedding
matrix has three rows: nothing in the scripts prevents or detects this. -/
def mismatchModel : PyModel :=
  { modules := [{ attrs := ["embedding"], kind := ModuleKind.staticEmbedding }]
    weights := { shape0 := 3, shape1 := 2, data := [1, 2, 3, 4, 5, 6] }
    vocab := [("a", 0), ("b", 1)]
    modelDirFiles := [] }

/-- A model that applies post-normalization at module index 2 (after a
pooling module at index 1 that has no `normalize` attribute). -/
def lateNormModel : PyModel :=
  { modules := [{ attrs := ["embedding"], kind := ModuleKind.staticEmbedding },
                { attrs := ["pooling_mode"], kind := ModuleKind.pooling },
                { attrs := ["normalize"], kind := ModuleKind.normalizeStage }]
    weights := { shape0 := 1, shape1 := 1, data := [7] }
    vocab := [("a", 0)]
    modelDirFiles := [] }

/-- The oracle of a run in which no operation raises. -/
def noRaise : ExStep → Bool := fun _ => false

/-- An oracle that makes the weight-tensor extraction (inside the try
block) raise. -/
def raiseAtExtract : ExStep → Bool := fun s => s == ExStep.extractWeights

/-- A conventional argument vector for the extractor. -/
def argvEx : List String := ["extract_embeddings.py", "m2v", "out"]

/-! ## Claim C1 -/

/-- C1: for every successful run of the extractor, the byte length of
the written `embeddings.bin` equals vocab_size x embedding_dim x 4,
where vocab_size and embedding_dim are the values recorded in the
sibling `embeddings_metadata.json`; the buffer is the float32 weight
matrix, row-major. -/
theorem c1_bin_length_matches_metadata (argv : List String)
    (pe : String → Bool) (m : PyModel) (o : ExStep → Bool)
    (hwf : m.weights.wf)
    (h0 : (extractMain argv pe m o).exitCode = 0) :
    ∃ b md,
      ("embeddings.bin", FileData.binData b) ∈
        (extractMain argv pe m o).writes ∧
      ("embeddings_metadata.json", FileData.jsonMetadata md) ∈
        (extractMain argv pe m o).writes ∧
      b.length = md.vocab_size * md.embedding_dim * 4 := by
  refine ⟨binBytes m.weights, goMetadata m.weights, ?_, ?_, ?_⟩
  · rw [extractMain_success argv pe m o h0]
    simp
  · rw [extractMain_success argv pe m o h0]
    simp
  · rw [binBytes_length m.weights hwf]
    rfl

theorem c1_bin_length_matches_metadata_witness :
    okModel.weights.wf ∧
    (extractMain argvEx (fun _ => true) okModel noRaise).exitCode = 0 ∧
    ∃ b md,
      ("embeddings.bin", FileData.binData b) ∈
        (extractMain argvEx (fun _ => true) okModel noRaise).writes ∧
      ("embeddings_metadata.json", FileData.jsonMetadata md) ∈
        (extractMain argvEx (fun _ => true) okModel noRaise).writes ∧
      b.length = md.vocab_size * md.embedding_dim * 4 :=
  ⟨by decide, by decide,
   c1_bin_length_matches_metadata argvEx (fun _ => true) okModel noRaise
     (by decide) (by decide)⟩

/-! ## Claim C2 -/

/-- C2 counterexample: a run of the extractor on a model whose
tokenizer vocabulary has two keys while the embedding matrix has three
rows completes successfully, yet the key count written to `vocab.json`
differs from the vocab_size written to `embeddings_metadata.json`:
nothing in the code makes the two coincide. -/
theorem c2_vocab_count_counterexample :
    (extractMain argvEx (fun _ => true) mismatchModel noRaise).exitCode = 0 ∧
    ("vocab.json", FileData.jsonVocab mismatchModel.vocab) ∈
      (extractMain argvEx (fun _ => true) mismatchModel noRaise).writes ∧
    ("embeddings_metadata.json",
      FileData.jsonMetadata (goMetadata mismatchModel.weights)) ∈
      (extractMain argvEx (fun _ => true) mismatchModel noRaise).writes ∧
    mismatchModel.vocab.length ≠
      (goMetadata mismatchModel.weights).vocab_size := by
  refine ⟨by decide, by decide, by decide, by decide⟩

/-- C2 (amended): for every successful run of the extractor on a model
whose tokenizer vocabulary size equals the embedding matrix's row
count, the number of keys written to `vocab.json` equals the vocab_size
recorded in `embeddings_metadata.json`. -/
theorem c2_vocab_count_amended (argv : List String) (pe : String → Bool)
    (m : PyModel) (o : ExStep → Bool)
    (hm : m.vocab.length = m.weights.shape0)
    (h0 : (extractMain argv pe m o).exitCode = 0) :
    ∃ v md,
      ("vocab.json", FileData.jsonVocab v) ∈
        (extractMain argv pe m o).writes ∧
      ("embeddings_metadata.json", FileData.jsonMetadata md) ∈
        (extractMain argv pe m o).writes ∧
      v.length = md.vocab_size := by
  refine ⟨m.vocab, goMetadata m.weights, ?_, ?_, ?_⟩
  · rw [extractMain_success argv pe m o h0]
    simp [extractSuccessWrites]
  · rw [extractMain_success argv pe m o h0]
    simp
  · exact hm

theorem c2_vocab_count_amended_witness :
    okModel.vocab.length = okModel.weights.shape0 ∧
    (extractMain argvEx (fun _ => true) okModel noRaise).exitCode = 0 ∧
    ∃ v md,
      ("vocab.json", FileData.jsonVocab v) ∈
        (extractMain argvEx (fun _ => true) okModel noRaise).writes ∧
      ("embeddings_metadata.json", FileData.jsonMetadata md) ∈
        (extractMain argvEx (fun _ => true) okModel noRaise).writes ∧
      v.length = md.vocab_size :=
  ⟨by decide, by decide,
   c2_vocab_count_amended argvEx (fun _ => true) okModel noRaise
     (by decide) (by decide)⟩

/-! ## Claim C6 -/

/-- C6 counterexample: a model with a normalization module after the
embedding stage (at index 2, behind a pooling module at index 1)
extracts successfully, yet the config written to `model_config.json`
has normalize = false: the code's test `len(model) > 1 and
hasattr(model[1], 'normalize')` looks only at the second module, so the
written flag is not equivalent to the model applying
post-normalization. -/
theorem c6_normalize_flag_counterexample :
    (extractMain argvEx (fun _ => true) lateNormModel noRaise).exitCode = 0 ∧
    ("model_config.json", FileData.jsonConfig (configData lateNormModel)) ∈
      (extractMain argvEx (fun _ => true) lateNormModel noRaise).writes ∧
    (configData lateNormModel).normalize = false ∧
    appliesPostNormalization lateNormModel.modules = true := by
  refine ⟨by decide, by decide, by decide, by decide⟩

/-- C6 (amended): for every successful run of the extractor, the
normalize field written to `model_config.json` is true if and only if
the module list has more than one entry and its second module has a
`normalize` attribute (the code's test `len(model) > 1 and
hasattr(model[1], 'normalize')`); a normalization stage at a later
index is not reflected. -/
theorem c6_normalize_flag_amended (argv : List String) (pe : String → Bool)
    (m : PyModel) (o : ExStep → Bool)
    (h0 : (extractMain argv pe m o).exitCode = 0) :
    ∃ c, ("model_config.json", FileData.jsonConfig c) ∈
        (extractMain argv pe m o).writes ∧
      (c.normalize = true ↔
        m.modules.length > 1 ∧
          ∃ m1, m.modules.get? 1 = some m1 ∧
            m1.attrs.contains "normalize" = true) := by
  refine ⟨configData m, ?_, ?_⟩
  · rw [extractMain_success argv pe m o h0]
    simp [extractSuccessWrites]
  · exact secondModuleNormalizeTest_iff m.modules

theorem c6_normalize_flag_amended_witness :
    (extractMain argvEx (fun _ => true) okModel noRaise).exitCode = 0 ∧
    ∃ c, ("model_config.json", FileData.jsonConfig c) ∈
        (extractMain argvEx (fun _ => true) okModel noRaise).writes ∧
      (c.normalize = true ↔
        okModel.modules.length > 1 ∧
          ∃ m1, okModel.modules.get? 1 = some m1 ∧
            m1.attrs.contains "normalize" = true) :=
  ⟨by decide,
   c6_normalize_flag_amended argvEx (fun _ => true) okModel noRaise (by decide)⟩

/-! ## Claim C10 -/

/-- C10: the extractor writes `embeddings.bin` and
`embeddings_metadata.json` only when `extract_model_weights` returned
success; when extraction does not return success the process exits with
status 1 and neither file is ever created. -/
theorem c10_outputs_only_on_success (argv : List String)
    (pe : String → Bool) (m : PyModel) (o : ExStep → Bool) :
    (∀ b, ("embeddings.bin", FileData.binData b) ∈
        (extractMain argv pe m o).writes →
      (extract_model_weights m o).1 = FnOutcome.returnedTrue) ∧
    (∀ md, ("embeddings_metadata.json", FileData.jsonMetadata md) ∈
        (extractMain argv pe m o).writes →
      (extract_model_weights m o).1 = FnOutcome.returnedTrue) ∧
    ((extract_model_weights m o).1 ≠ FnOutcome.returnedTrue →
      (extractMain argv pe m o).exitCode = 1 ∧
      (∀ b, ("embeddings.bin", FileData.binData b) ∉
        (extractMain argv pe m o).writes) ∧
      (∀ md, ("embeddings_metadata.json", FileData.jsonMetadata md) ∉
        (extractMain argv pe m o).writes)) := by
  by_cases ht : (extract_model_weights m o).1 = FnOutcome.returnedTrue
  · exact ⟨fun _ _ => ht, fun _ _ => ht, fun hnt => absurd ht hnt⟩
  · obtain ⟨hexit, hsub⟩ := extractMain_not_true_writes argv pe m o ht
    refine ⟨?_, ?_, fun _ => ⟨hexit, ?_, ?_⟩⟩
    · intro b hb
      exact absurd (hsub _ hb) (bin_not_in_successWrites m b)
    · intro md hmd
      exact absurd (hsub _ hmd) (metadata_not_in_successWrites m md)
    · intro b hb
      exact absurd (hsub _ hb) (bin_not_in_successWrites m b)
    · intro md hmd
      exact absurd (hsub _ hmd) (metadata_not_in_successWrites m md)

theorem c10_outputs_only_on_success_witness :
    (extract_model_weights okModel raiseAtExtract).1 ≠
      FnOutcome.returnedTrue ∧
    ((extractMain argvEx (fun _ => true) okModel raiseAtExtract).exitCode = 1 ∧
      (∀ b, ("embeddings.bin", FileData.binData b) ∉
        (extractMain argvEx (fun _ => true) okModel raiseAtExtract).writes) ∧
      (∀ md, ("embeddings_metadata.json", FileData.jsonMetadata md) ∉
        (extractMain argvEx (fun _ => true) okModel raiseAtExtract).writes)) :=
  ⟨by decide,
   (c10_outputs_only_on_success argvEx (fun _ => true) okModel
       raiseAtExtract).2.2 (by decide)⟩

/-! ## Converter helpers -/

/-- The file writes of a completed `convert_model_to_onnx` call. -/
def convertSuccessWrites (m : PyModel) : List (String × FileData) :=
  [("model.onnx",
    FileData.onnxGraph ((wrapperNormalizeModule m.modules).isSome))] ++
    copySideFilesCv m

theorem convert_model_to_onnx_true (m : PyModel) (o : CvStep → Bool)
    (importOk : Bool) (t : TestStep → Bool)
    (ws : List (String × FileData)) (ps : List String)
    (h : convert_model_to_onnx m o importOk t =
      (FnOutcome.returnedTrue, ws, ps)) :
    ws = convertSuccessWrites m ∧ ps = [] := by
  unfold convert_model_to_onnx at h
  by_cases c1 : cvRaises m o CvStep.loadModelCv = true
  · rw [if_pos c1] at h
    simp at h
  rw [if_neg c1] at h
  by_cases c2 : cvRaises m o CvStep.evalCv = true
  · rw [if_pos c2] at h
    simp at h
  rw [if_neg c2] at h
  by_cases c3 : cvRaises m o CvStep.makedirsCv = true
  · rw [if_pos c3] at h
    simp at h
  rw [if_neg c3] at h
  by_cases c4 : cvRaises m o CvStep.getModule0Cv = true
  · rw [if_pos c4] at h
    simp at h
  rw [if_neg c4] at h
  by_cases c5 : cvRaises m o CvStep.exportOnnx = true
  · rw [if_pos c5] at h
    simp at h
  rw [if_neg c5] at h
  by_cases c6 : cvRaises m o CvStep.copyFilesCv = true
  · rw [if_pos c6] at h
    simp at h
  rw [if_neg c6] at h
  injection h with hA hB
  injection hB with hws hps
  exact ⟨hws.symm, hps.symm⟩

/-- Characterization of a successful converter run. -/
theorem convertMain_success (argv : List String) (pe : String → Bool)
    (m : PyModel) (o : CvStep → Bool) (importOk : Bool)
    (t : TestStep → Bool)
    (h0 : (convertMain argv pe m o importOk t).exitCode = 0) :
    convertMain argv pe m o importOk t =
      { exitCode := 0, uncaught := false, printed := []
        writes := convertSuccessWrites m } := by
  unfold convertMain at h0 ⊢
  by_cases hargv : argv.length ≠ 3
  · rw [if_pos hargv] at h0
    simp at h0
  rw [if_neg hargv] at h0 ⊢
  by_cases hpe : pe (argvInput argv) = false
  · rw [if_pos hpe] at h0
    simp at h0
  rw [if_neg hpe] at h0 ⊢
  rcases heq : convert_model_to_onnx m o importOk t with ⟨out, ws, ps⟩
  cases out with
  | raised =>
    rw [heq] at h0
    simp at h0
  | returnedFalse =>
    rw [heq] at h0
    simp at h0
  | returnedTrue =>
    obtain ⟨hws, hps⟩ := convert_model_to_onnx_true m o importOk t ws ps heq
    subst hws
    subst hps
    simp

/-! ## Claim C7 -/

/-- C7: the wrapper built by the converter skips the normalization
stage exactly when the (nonempty) module list has length one; for a
model with no second module a successful conversion therefore exports a
graph with the normalization stage absent, and the wrapper's forward
pass is the static-embedding output unchanged. -/
theorem c7_single_module_graph_without_normalization
    (argv : List String) (pe : String → Bool) (m : PyModel)
    (o : CvStep → Bool) (importOk : Bool) (t : TestStep → Bool)
    (h1 : m.modules.length = 1) :
    wrapperNormalizeModule m.modules = none ∧
    (∀ staticEmb ids,
      model2VecWrapperForward staticEmb none ids = staticEmb ids) ∧
    (∀ mods : List PyModule, mods ≠ [] →
      (wrapperNormalizeModule mods = none ↔ mods.length = 1)) ∧
    ((convertMain argv pe m o importOk t).exitCode = 0 →
      ("model.onnx", FileData.onnxGraph false) ∈
        (convertMain argv pe m o importOk t).writes) := by
  have hnone : wrapperNormalizeModule m.modules = none := by
    unfold wrapperNormalizeModule
    rw [if_neg (by omega)]
  refine ⟨hnone, fun staticEmb ids => rfl, ?_, ?_⟩
  · intro mods hne
    unfold wrapperNormalizeModule
    by_cases hl : mods.length > 1
    · rw [if_pos hl]
      rw [List.get?_eq_get (by omega : 1 < mods.length)]
      simp
      omega
    · rw [if_neg hl]
      have hp : 0 < mods.length := List.length_pos.mpr hne
      simp
      omega
  · intro h0
    rw [convertMain_success argv pe m o importOk t h0]
    simp [convertSuccessWrites, hnone]

/-- A model with a single (static embedding) module. -/
def singleModuleModel : PyModel :=
  { modules := [{ attrs := ["embedding"], kind := ModuleKind.staticEmbedding }]
    weights := { shape0 := 1, shape1 := 2, data := [3, 4] }
    vocab := [("a", 0)]
    modelDirFiles := ["config.json"] }

/-- A conventional argument vector for the converter. -/
def argvCv : List String := ["convert_to_onnx.py", "m2v", "out"]

/-- The converter oracle of a run in which no operation raises. -/
def noRaiseCv : CvStep → Bool := fun _ => false

/-- A smoke-test oracle in which nothing raises. -/
def noRaiseTest : TestStep → Bool := fun _ => false

theorem c7_single_module_graph_without_normalization_witness :
    singleModuleModel.modules.length = 1 ∧
    (wrapperNormalizeModule singleModuleModel.modules = none ∧
      (∀ staticEmb ids,
        model2VecWrapperForward staticEmb none ids = staticEmb ids) ∧
      (∀ mods : List PyModule, mods ≠ [] →
        (wrapperNormalizeModule mods = none ↔ mods.length = 1)) ∧
      ((convertMain argvCv (fun _ => true) singleModuleModel noRaiseCv true
          noRaiseTest).exitCode = 0 →
        ("model.onnx", FileData.onnxGraph false) ∈
          (convertMain argvCv (fun _ => true) singleModuleModel noRaiseCv true
            noRaiseTest).writes)) :=
  ⟨by decide,
   c7_single_module_graph_without_normalization argvCv (fun _ => true)
     singleModuleModel noRaiseCv true noRaiseTest (by decide)⟩

/-! ## Claim C9 -/

/-- C9: the post-export smoke test never affects the overall result:
the converter's run is bit-for-bit independent of the smoke test's
module availability and of which of its operations raise (every
exception inside `test_onnx_model` is caught locally and its return
value is discarded), and whenever the steps through the export and
side-file copying complete the conversion returns success and the
process exits 0. -/
theorem c9_smoke_test_never_affects_result (argv : List String)
    (pe : String → Bool) (m : PyModel) (o : CvStep → Bool)
    (importOk importOk2 : Bool) (t t2 : TestStep → Bool)
    (hno : ∀ s, cvRaises m o s = false)
    (hargv : argv.length = 3) (hpe : pe (argvInput argv) = true) :
    convertMain argv pe m o importOk t =
      convertMain argv pe m o importOk2 t2 ∧
    (convert_model_to_onnx m o importOk t).1 = FnOutcome.returnedTrue ∧
    (convertMain argv pe m o importOk t).exitCode = 0 := by
  have hconv : ∀ (i : Bool) (tt : TestStep → Bool),
      convert_model_to_onnx m o i tt =
        (FnOutcome.returnedTrue, convertSuccessWrites m, []) := by
    intro i tt
    unfold convert_model_to_onnx
    simp [hno, convertSuccessWrites]
  have hmain : ∀ (i : Bool) (tt : TestStep → Bool),
      convertMain argv pe m o i tt =
        { exitCode := 0, uncaught := false, printed := []
          writes := convertSuccessWrites m } := by
    intro i tt
    unfold convertMain
    rw [if_neg (by omega), if_neg (by simp [hpe]), hconv i tt]
  refine ⟨?_, ?_, ?_⟩
  · rw [hmain importOk t, hmain importOk2 t2]
  · rw [hconv importOk t]
  · rw [hmain importOk t]

/-- A smoke-test oracle in which every operation raises. -/
def raiseAllTest : TestStep → Bool := fun _ => true

theorem c9_smoke_test_never_affects_result_witness :
    (∀ s, cvRaises singleModuleModel noRaiseCv s = false) ∧
    (convertMain argvCv (fun _ => true) singleModuleModel noRaiseCv true
        noRaiseTest =
      convertMain argvCv (fun _ => true) singleModuleModel noRaiseCv false
        raiseAllTest ∧
    (convert_model_to_onnx singleModuleModel noRaiseCv true
        noRaiseTest).1 = FnOutcome.returnedTrue ∧
    (convertMain argvCv (fun _ => true) singleModuleModel noRaiseCv true
        noRaiseTest).exitCode = 0) :=
  ⟨by intro s; cases s <;> rfl,
   c9_smoke_test_never_affects_result argvCv (fun _ => true)
     singleModuleModel noRaiseCv true false noRaiseTest raiseAllTest
     (by intro s; cases s <;> rfl) (by decide) (by decide)⟩

/-! ## Claim C8 -/

/-- C8: for every invocation of `convert_to_onnx.py` or
`extract_embeddings.py` with both arguments given but a non-existent
input model path, the process exits with code 1 after printing an error
message that contains the given path, and writes no output files. -/
theorem c8_missing_input_path (argv : List String) (pe : String → Bool)
    (m : PyModel) (o : ExStep → Bool) (oc : CvStep → Bool)
    (importOk : Bool) (t : TestStep → Bool)
    (hargv : argv.length = 3)
    (hpe : pe (argvInput argv) = false) :
    extractMain argv pe m o =
      { exitCode := 1, uncaught := false
        printed := [missingPathMsg (argvInput argv)], writes := [] } ∧
    convertMain argv pe m oc importOk t =
      { exitCode := 1, uncaught := false
        printed := [missingPathMsg (argvInput argv)], writes := [] } ∧
    ∃ pre, missingPathMsg (argvInput argv) = pre ++ argvInput argv := by
  refine ⟨?_, ?_, ⟨"Error: Input path does not exist: ", rfl⟩⟩
  · unfold extractMain
    rw [if_neg (by omega), if_pos hpe]
  · unfold convertMain
    rw [if_neg (by omega), if_pos hpe]

theorem c8_missing_input_path_witness :
    argvEx.length = 3 ∧
    (fun _ => false : String → Bool) (argvInput argvEx) = false ∧
    (extractMain argvEx (fun _ => false) okModel noRaise =
      { exitCode := 1, uncaught := false
        printed := [missingPathMsg (argvInput argvEx)], writes := [] } ∧
    convertMain argvEx (fun _ => false) okModel noRaiseCv true noRaiseTest =
      { exitCode := 1, uncaught := false
        printed := [missingPathMsg (argvInput argvEx)], writes := [] } ∧
    ∃ pre, missingPathMsg (argvInput argvEx) = pre ++ argvInput argvEx) :=
  ⟨by decide, by decide,
   c8_missing_input_path argvEx (fun _ => false) okModel noRaise noRaiseCv
     true noRaiseTest (by decide) (by decide)⟩

/-! ## Claim C4 -/

/-- An encoder whose embedding generation always raises. -/
def encFail : String → Except String (List Nat) := fun _ => Except.error "boom"

/-- C4 counterexample: when embedding generation fails, `embed.py`
prints the single JSON error line but then falls off the end of the
script: the process exits with status 0, not 1 as the claim states. -/
theorem c4_exit_status_counterexample :
    (embedMain (Except.ok ()) encFail ["embed.py", "hello"]).1 =
      [EmbedOut.errorLine "Failed to generate embedding: boom"] ∧
    (embedMain (Except.ok ()) encFail ["embed.py", "hello"]).2 = 0 ∧
    (embedMain (Except.ok ()) encFail ["embed.py", "hello"]).2 ≠ 1 :=
  ⟨rfl, rfl, by decide⟩

/-- C4 (amended): every invocation of `embed.py` prints exactly one
JSON line, either an embedding object or an error object; the process
exits with status 1 when model load fails, but on an embedding
generation failure it prints the error object and exits with status 0. -/
theorem c4_one_json_line_amended (loadRes : Except String Unit)
    (enc : String → Except String (List Nat)) (argv : List String) :
    (embedMain loadRes enc argv).1.length = 1 ∧
    (∀ e, loadRes = Except.error e →
      embedMain loadRes enc argv =
        ([EmbedOut.errorLine ("Failed to load model: " ++ e)], 1)) ∧
    (∀ s text err, loadRes = Except.ok () → argv = [s, text] →
      enc text = Except.error err →
      embedMain loadRes enc argv =
        ([EmbedOut.errorLine ("Failed to generate embedding: " ++ err)], 0)) ∧
    (∀ s text v, loadRes = Except.ok () → argv = [s, text] →
      enc text = Except.ok v →
      embedMain loadRes enc argv = ([EmbedOut.embeddingLine v], 0)) := by
  refine ⟨?_, ?_, ?_, ?_⟩
  · rcases loadRes with e | u
    · rfl
    · rcases argv with _ | ⟨a, _ | ⟨b, _ | ⟨c, rest⟩⟩⟩
      · rfl
      · rfl
      · simp [embedMain, generate_embedding]
      · rfl
  · intro e he
    subst he
    rfl
  · intro s text err hl ha henc
    subst hl
    subst ha
    simp [embedMain, generate_embedding, henc]
  · intro s text v hl ha henc
    subst hl
    subst ha
    simp [embedMain, generate_embedding, henc]

theorem c4_one_json_line_amended_witness :
    (embedMain (Except.ok ()) encFail ["embed.py", "hello"]).1.length = 1 ∧
    embedMain (Except.ok ()) encFail ["embed.py", "hello"] =
      ([EmbedOut.errorLine "Failed to generate embedding: boom"], 0) :=
  ⟨(c4_one_json_line_amended (Except.ok ()) encFail ["embed.py", "hello"]).1,
   (c4_one_json_line_amended (Except.ok ()) encFail
       ["embed.py", "hello"]).2.2.1 "embed.py" "hello" "boom" rfl rfl rfl⟩

/-! ## Claim C5 -/

/-- C5: for every input text, running the embedder twice on the same
text within the same process load yields bit-identical output: the
embedding pipeline of `embed.py` is a pure function of the loaded model
state and the input text, with no source of randomness (no dropout at
inference). -/
theorem c5_embedding_deterministic (m : PyModel) (text : String) :
    (runEmbedderTwice m text).1 = (runEmbedderTwice m text).2 := rfl

/-! ## Claim C3 -/

theorem extract_model_weights_false (m : PyModel) (o : ExStep → Bool)
    (ws : List (String × FileData)) (ps : List String)
    (h : extract_model_weights m o = (FnOutcome.returnedFalse, ws, ps)) :
    ps = [extractErrMsg] := by
  unfold extract_model_weights at h
  by_cases c1 : exRaises m o ExStep.loadModel = true
  · rw [if_pos c1] at h
    simp at h
  rw [if_neg c1] at h
  by_cases c2 : exRaises m o ExStep.makedirs = true
  · rw [if_pos c2] at h
    simp at h
  rw [if_neg c2] at h
  by_cases c3 : exRaises m o ExStep.getModule0 = true
  · rw [if_pos c3] at h
    exact (congrArg (fun q => q.2.2) h).symm
  rw [if_neg c3] at h
  by_cases c4 : exRaises m o ExStep.extractWeights = true
  · rw [if_pos c4] at h
    exact (congrArg (fun q => q.2.2) h).symm
  rw [if_neg c4] at h
  by_cases c5 : exRaises m o ExStep.saveNpy = true
  · rw [if_pos c5] at h
    exact (congrArg (fun q => q.2.2) h).symm
  rw [if_neg c5] at h
  by_cases c6 : exRaises m o ExStep.getVocab = true
  · rw [if_pos c6] at h
    exact (congrArg (fun q => q.2.2) h).symm
  rw [if_neg c6] at h
  by_cases c7 : exRaises m o ExStep.saveVocab = true
  · rw [if_pos c7] at h
    exact (congrArg (fun q => q.2.2) h).symm
  rw [if_neg c7] at h
  by_cases c8 : exRaises m o ExStep.saveConfig = true
  · rw [if_pos c8] at h
    exact (congrArg (fun q => q.2.2) h).symm
  rw [if_neg c8] at h
  by_cases c9 : exRaises m o ExStep.copyFiles = true
  · rw [if_pos c9] at h
    exact (congrArg (fun q => q.2.2) h).symm
  rw [if_neg c9] at h
  by_cases c10 : exRaises m o ExStep.testExtraction = true
  · rw [if_pos c10] at h
    exact (congrArg (fun q => q.2.2) h).symm
  rw [if_neg c10] at h
  simp at h

theorem convert_model_to_onnx_false (m : PyModel) (o : CvStep → Bool)
    (importOk : Bool) (t : TestStep → Bool)
    (ws : List (String × FileData)) (ps : List String)
    (h : convert_model_to_onnx m o importOk t =
      (FnOutcome.returnedFalse, ws, ps)) :
    ps = [convertErrMsg] := by
  unfold convert_model_to_onnx at h
  by_cases c1 : cvRaises m o CvStep.loadModelCv = true
  · rw [if_pos c1] at h
    simp at h
  rw [if_neg c1] at h
  by_cases c2 : cvRaises m o CvStep.evalCv = true
  · rw [if_pos c2] at h
    simp at h
  rw [if_neg c2] at h
  by_cases c3 : cvRaises m o CvStep.makedirsCv = true
  · rw [if_pos c3] at h
    simp at h
  rw [if_neg c3] at h
  by_cases c4 : cvRaises m o CvStep.getModule0Cv = true
  · rw [if_pos c4] at h
    exact (congrArg (fun q => q.2.2) h).symm
  rw [if_neg c4] at h
  by_cases c5 : cvRaises m o CvStep.exportOnnx = true
  · rw [if_pos c5] at h
    exact (congrArg (fun q => q.2.2) h).symm
  rw [if_neg c5] at h
  by_cases c6 : cvRaises m o CvStep.copyFilesCv = true
  · rw [if_pos c6] at h
    exact (congrArg (fun q => q.2.2) h).symm
  rw [if_neg c6] at h
  simp at h

/-- The extractor oracle making the model load raise. -/
def raiseAtLoadEx : ExStep → Bool := fun s => s == ExStep.loadModel

/-- The extractor oracle making the post-success binary write raise. -/
def raiseAtWriteBin : ExStep → Bool := fun s => s == ExStep.writeBin

/-- The converter oracle making the model load raise. -/
def raiseAtLoadCv : CvStep → Bool := fun s => s == CvStep.loadModelCv

/-- The converter oracle making the ONNX export (inside the try block)
raise. -/
def raiseAtExport : CvStep → Bool := fun s => s == CvStep.exportOnnx

/-- C3 counterexample: in `extract_embeddings.py` the model load runs
before the try block, so an exception raised while loading the model is
not caught at top level and no error message is printed by the script:
the process dies of an uncaught exception. -/
theorem c3_load_uncaught_counterexample :
    (extractMain argvEx (fun _ => true) okModel raiseAtLoadEx).uncaught =
      true ∧
    (extractMain argvEx (fun _ => true) okModel raiseAtLoadEx).printed =
      [] :=
  ⟨by decide, by decide⟩

/-- C3 (amended): exceptions raised inside the converter's and the
extractor's try blocks are caught, the error message is printed, and
the process exits with status 1; `embed.py` catches a model-load
failure (one JSON error line, exit 1) and a generation failure (one
JSON error line, but exit 0); however, exceptions raised during model
load in `convert_to_onnx.py` and `extract_embeddings.py`, and during
the extractor's post-success Go-data step, are caught by no handler:
the interpreter terminates on the uncaught exception (exiting nonzero)
with no script-printed message. -/
theorem c3_error_handling_amended
    (argv : List String) (pe : String → Bool) (m : PyModel)
    (o1 o2 o3 : ExStep → Bool) (oc1 oc2 : CvStep → Bool)
    (importOk : Bool) (t : TestStep → Bool)
    (enc : String → Except String (List Nat))
    (loadErr genErr text s : String)
    (hargv : argv.length = 3) (hpe : pe (argvInput argv) = true)
    (h1 : o1 ExStep.loadModel = true)
    (h2 : (extract_model_weights m o2).1 = FnOutcome.returnedFalse)
    (h3t : (extract_model_weights m o3).1 = FnOutcome.returnedTrue)
    (h3a : exRaises m o3 ExStep.loadNpyGo = false)
    (h3b : exRaises m o3 ExStep.writeBin = true)
    (hc1 : oc1 CvStep.loadModelCv = true)
    (hc2 : (convert_model_to_onnx m oc2 importOk t).1 =
      FnOutcome.returnedFalse)
    (henc : enc text = Except.error genErr) :
    ((extractMain argv pe m o1).uncaught = true ∧
     (extractMain argv pe m o1).exitCode = 1 ∧
     (extractMain argv pe m o1).printed = []) ∧
    ((extractMain argv pe m o2).exitCode = 1 ∧
     (extractMain argv pe m o2).uncaught = false ∧
     extractErrMsg ∈ (extractMain argv pe m o2).printed) ∧
    ((extractMain argv pe m o3).uncaught = true ∧
     (extractMain argv pe m o3).exitCode = 1) ∧
    ((convertMain argv pe m oc1 importOk t).uncaught = true ∧
     (convertMain argv pe m oc1 importOk t).exitCode = 1 ∧
     (convertMain argv pe m oc1 importOk t).printed = []) ∧
    ((convertMain argv pe m oc2 importOk t).exitCode = 1 ∧
     (convertMain argv pe m oc2 importOk t).uncaught = false ∧
     convertErrMsg ∈ (convertMain argv pe m oc2 importOk t).printed) ∧
    (embedMain (Except.error loadErr) enc argv =
      ([EmbedOut.errorLine ("Failed to load model: " ++ loadErr)], 1)) ∧
    (embedMain (Except.ok ()) enc [s, text] =
      ([EmbedOut.errorLine ("Failed to generate embedding: " ++ genErr)],
       0)) := by
  refine ⟨?_, ?_, ?_, ?_, ?_, rfl, ?_⟩
  · have hr : extract_model_weights m o1 = (FnOutcome.raised, [], []) := by
      unfold extract_model_weights
      rw [if_pos (by simp [exRaises, h1])]
    unfold extractMain
    rw [if_neg (by omega), if_neg (by simp [hpe]), hr]
    exact ⟨rfl, rfl, rfl⟩
  · rcases heq : extract_model_weights m o2 with ⟨out, ws, ps⟩
    rw [heq] at h2
    simp at h2
    subst h2
    have hps := extract_model_weights_false m o2 ws ps heq
    subst hps
    unfold extractMain
    rw [if_neg (by omega), if_neg (by simp [hpe]), heq]
    exact ⟨rfl, rfl, by simp⟩
  · rcases heq : extract_model_weights m o3 with ⟨out, ws, ps⟩
    rw [heq] at h3t
    simp at h3t
    subst h3t
    unfold extractMain
    rw [if_neg (by omega), if_neg (by simp [hpe]), heq]
    simp [h3a, h3b]
  · have hr : convert_model_to_onnx m oc1 importOk t =
        (FnOutcome.raised, [], []) := by
      unfold convert_model_to_onnx
      rw [if_pos (by simp [cvRaises, hc1])]
    unfold convertMain
    rw [if_neg (by omega), if_neg (by simp [hpe]), hr]
    exact ⟨rfl, rfl, rfl⟩
  · rcases heq : convert_model_to_onnx m oc2 importOk t with ⟨out, ws, ps⟩
    rw [heq] at hc2
    simp at hc2
    subst hc2
    have hps := convert_model_to_onnx_false m oc2 importOk t ws ps heq
    subst hps
    unfold convertMain
    rw [if_neg (by omega), if_neg (by simp [hpe]), heq]
    exact ⟨rfl, rfl, by simp⟩
  · simp [embedMain, generate_embedding, henc]

theorem c3_error_handling_amended_witness :
    ((extractMain argvEx (fun _ => true) okModel raiseAtLoadEx).uncaught =
       true ∧
     (extractMain argvEx (fun _ => true) okModel raiseAtLoadEx).exitCode =
       1 ∧
     (extractMain argvEx (fun _ => true) okModel raiseAtLoadEx).printed =
       []) ∧
    ((extractMain argvEx (fun _ => true) okModel raiseAtExtract).exitCode =
       1 ∧
     (extractMain argvEx (fun _ => true) okModel raiseAtExtract).uncaught =
       false ∧
     extractErrMsg ∈
       (extractMain argvEx (fun _ => true) okModel raiseAtExtract).printed) ∧
    ((extractMain argvEx (fun _ => true) okModel raiseAtWriteBin).uncaught =
       true ∧
     (extractMain argvEx (fun _ => true) okModel raiseAtWriteBin).exitCode =
       1) ∧
    ((convertMain argvEx (fun _ => true) okModel raiseAtLoadCv true
        noRaiseTest).uncaught = true ∧
     (convertMain argvEx (fun _ => true) okModel raiseAtLoadCv true
        noRaiseTest).exitCode = 1 ∧
     (convertMain argvEx (fun _ => true) okModel raiseAtLoadCv true
        noRaiseTest).printed = []) ∧
    ((convertMain argvEx (fun _ => true) okModel raiseAtExport true
        noRaiseTest).exitCode = 1 ∧
     (convertMain argvEx (fun _ => true) okModel raiseAtExport true
        noRaiseTest).uncaught = false ∧
     convertErrMsg ∈
       (convertMain argvEx (fun _ => true) okModel raiseAtExport true
         noRaiseTest).printed) ∧
    (embedMain (Except.error "nofile") encFail argvEx =
      ([EmbedOut.errorLine "Failed to load model: nofile"], 1)) ∧
    (embedMain (Except.ok ()) encFail ["embed.py", "hello"] =
      ([EmbedOut.errorLine "Failed to generate embedding: boom"], 0)) :=
  c3_error_handling_amended argvEx (fun _ => true) okModel raiseAtLoadEx
    raiseAtExtract raiseAtWriteBin raiseAtLoadCv raiseAtExport true
    noRaiseTest encFail "nofile" "boom" "hello" "embed.py"
    (by decide) (by decide) (by decide) (by decide) (by decide) (by decide)
    (by decide) (by decide) (by decide) rfl

end CodeForge
